import Mathlib

/-!
Verification of the plugin-resolution mechanism of `freqtrade/resolvers/iresolver.py`
(`IResolver._get_valid_object` and `IResolver._search_object`).

The embedding models a loaded Python module abstractly: a `SourceFile` carries the
class members its module namespace holds after `exec_module` ran (possibly partially,
when execution raised), together with the error `exec_module` raised, if any.
`ModuleNotFoundError` and `SyntaxError` are the kinds caught by the `except` clause in
`_get_valid_object`; any other exception propagates out of the scan.  A Python class
is modelled by its identifier, the identifiers of its immediate bases (`__bases__`),
and the keyword parameters its constructor accepts.  Constructor-argument dicts are
modelled as association lists from keys to integer values.
-/

/-- Error raised by `exec_module` while loading a source file.  The first two
constructors are the exception types caught by `_get_valid_object`; `uncaught`
stands for any other exception, which propagates to the caller. -/
inductive LoadError where
  | moduleNotFound (msg : String)
  | syntaxError (msg : String)
  | uncaught (msg : String)
deriving DecidableEq, Repr

/-- Whether the `except (ModuleNotFoundError, SyntaxError)` clause of
`_get_valid_object` catches this error. -/
def LoadError.isCaught : LoadError → Bool
  | .moduleNotFound _ => true
  | .syntaxError _ => true
  | .uncaught _ => false

/-- A Python class object: its identifier, the identifiers of its immediate base
classes (`__bases__`), and the keyword-parameter names its `__init__` accepts. -/
structure PyClass where
  name : String
  bases : List String
  ctorParams : List String
deriving DecidableEq, Repr

/-- Error raised by a constructor call `obj(**kwargs)`: Python raises `TypeError`
when a supplied keyword is not a parameter of `__init__`. -/
inductive CtorError where
  | typeError (msg : String)
deriving DecidableEq, Repr

/-- An instance produced by `obj(**kwargs)` for an implementation whose constructor
records the keyword arguments it received. -/
structure Instance where
  cls : PyClass
  initArgs : List (String × Int)
deriving DecidableEq, Repr

/-- The constructor call `obj(**kwargs)`: keyword unpacking hands the constructor a
copy of `kwargs`; the call succeeds, recording the arguments verbatim, exactly when
every supplied keyword is a declared parameter, and raises `TypeError` otherwise. -/
def construct (obj : PyClass) (kwargs : List (String × Int)) : Except CtorError Instance :=
  if kwargs.all (fun kv => obj.ctorParams.contains kv.fst) then
    Except.ok ⟨obj, kwargs⟩
  else
    Except.error (CtorError.typeError "__init__ got an unexpected keyword argument")

/-- One directory entry, as `_get_valid_object` sees its module after attempting
`spec.loader.exec_module(module)`: the entry name inside the directory, the class
members bound in the module namespace when execution stopped (all of them when it
ran to completion, the ones defined before the failing statement when it raised),
and the error `exec_module` raised, if any. -/
structure SourceFile where
  entryName : String
  members : List PyClass
  execError : Option LoadError
deriving DecidableEq, Repr

/-- A directory handed to `_search_object`: its path and the entries `iterdir`
yields, in iteration order. -/
structure Directory where
  path : String
  entries : List SourceFile
deriving DecidableEq, Repr

/-- `IResolver._get_valid_object`: loads the module (the `try` block wraps only
`exec_module`; `ModuleNotFoundError` and `SyntaxError` are caught and logged, any
other exception propagates), then scans `inspect.getmembers(module, inspect.isclass)`
— run on the module as it stands, even after a caught failure — for the first class
whose name equals `object_name` and whose `__bases__` contain `object_type`. -/
def get_valid_object (object_type : String) (file : SourceFile) (object_name : String) :
    Except String (Option PyClass) :=
  match file.execError with
  | some (LoadError.uncaught msg) => Except.error msg
  | _ =>
      Except.ok
        ((file.members.filter
          (fun obj => object_name == obj.name && obj.bases.contains object_type)).head?)

/-- Python's `str.endswith`, as the check `str(entry).endswith(".py")` uses it:
whether the suffix's characters are a suffix of the string's characters. -/
def str_ends_with (s suffix : String) : Bool :=
  suffix.data.isSuffixOf s.data

/-- The scan loop of `_search_object` (its `for entry in directory.iterdir()` body):
entries not ending in `.py` are skipped; each remaining entry is loaded and matched
by `_get_valid_object`, and every match is appended to `objs` together with its
resolved module path.  An uncaught load exception aborts the loop. -/
def scan_loop (directory_path object_type object_name : String) :
    List SourceFile → Except String (List (PyClass × String))
  | [] => Except.ok []
  | entry :: rest =>
    if str_ends_with entry.entryName ".py" then
      match get_valid_object object_type entry object_name with
      | Except.error msg => Except.error msg
      | Except.ok obj =>
        match scan_loop directory_path object_type object_name rest with
        | Except.error msg => Except.error msg
        | Except.ok objs =>
          match obj with
          | some o => Except.ok ((o, directory_path ++ "/" ++ entry.entryName) :: objs)
          | none => Except.ok objs
    else
      scan_loop directory_path object_type object_name rest

/-- The candidate-accumulation phase of `_search_object` over one directory. -/
def scan_directory (d : Directory) (object_type object_name : String) :
    Except String (List (PyClass × String)) :=
  scan_loop d.path object_type object_name d.entries

/-- A single quote character, for rendering Python string reprs. -/
def squote : String := String.singleton (Char.ofNat 39)

/-- Python rendering of a list of strings, as the f-string
`{[str(m) for (_, m) in objs]}` in `_search_object` produces it. -/
def pyStrList (ss : List String) : String :=
  "[" ++ String.intercalate ", " (ss.map (fun s => squote ++ s ++ squote)) ++ "]"

/-- The `OperationalException` message built in the `else` branch of
`_search_object`, naming the capability type label (`self.type_name`), the requested
name, and the module paths of all matches, in the order they were appended. -/
def ambiguity_message (type_name object_name : String) (modules : List String) : String :=
  "Cannot resolve object: found more than one objects of type " ++
  "`" ++ type_name ++ "` with name `" ++ object_name ++ "`. " ++
  "Use unique names for custom strategies, hyperopts and other custom objects " ++
  "so that Freqtrade can be able to resolve them. " ++
  "Found in modules: " ++ pyStrList modules

/-- How a `_search_object` call terminates abnormally: the `OperationalException`
raised for ambiguity, a `TypeError` propagating from the winning constructor call,
or an uncaught exception propagating from `exec_module` during the scan. -/
inductive SearchError where
  | operationalException (msg : String)
  | constructionFailure (e : CtorError)
  | loadFailure (msg : String)
deriving DecidableEq, Repr

/-- Observable outcome of one `_search_object` call.  `result` is the returned pair
(`(None, None)` modelled as `none`) or the raised exception; `ctor_calls` records
every constructor invocation `obj(**kwargs)` the call performed, in order;
`kwargs_after` is the state of the caller's `kwargs` dict when the call returns —
the body's only use of `kwargs` is the read-only `obj(**kwargs)` unpacking, which
copies the entries into the constructor's own dict, so every branch leaves the dict
exactly as received. -/
structure SearchOutcome where
  result : Except SearchError (Option (Instance × String))
  ctor_calls : List (PyClass × List (String × Int))
  kwargs_after : List (String × Int)
deriving Repr

/-- The decision rule of `_search_object` on the accumulated candidate list
(its lines from `if len(objs) == 0` on): zero matches return `(None, None)`, exactly
one is instantiated with `**kwargs` and returned with its module path, more than one
raises `OperationalException` with `ambiguity_message` — before any instantiation. -/
def decide_objs (type_name object_name : String) (kwargs : List (String × Int))
    (objs : List (PyClass × String)) : SearchOutcome :=
  match objs with
  | [] => ⟨Except.ok none, [], kwargs⟩
  | [(obj, module_path)] =>
      match construct obj kwargs with
      | Except.ok inst => ⟨Except.ok (some (inst, module_path)), [(obj, kwargs)], kwargs⟩
      | Except.error e => ⟨Except.error (SearchError.constructionFailure e), [(obj, kwargs)], kwargs⟩
  | _ =>
      ⟨Except.error
        (SearchError.operationalException
          (ambiguity_message type_name object_name (objs.map (fun p => p.snd)))),
       [], kwargs⟩

/-- `IResolver._search_object`: scans the directory, accumulating all matches, then
applies the decision rule to the accumulated list.  `type_name` is the resolver
class's `self.type_name` label (its default on `IResolver` itself is `"Unknown"`). -/
def search_object (d : Directory) (type_name object_type object_name : String)
    (kwargs : List (String × Int)) : SearchOutcome :=
  match scan_directory d object_type object_name with
  | Except.error msg => ⟨Except.error (SearchError.loadFailure msg), [], kwargs⟩
  | Except.ok objs => decide_objs type_name object_name kwargs objs

/-- The `type_name` class attribute of `IResolver` itself. -/
def IResolver.type_name : String := "Unknown"

/-- Modelled from the spec: the multi-directory `resolve` orchestration is not under
src/ (only the single-directory `IResolver._search_object` is).  Per the spec,
resolve "iterates every directory in `search_path`, invoking Scanner then Matcher
for each file found, and accumulates all Candidates across all directories into one
list" without short-circuiting.  Accumulation over one directory is the scan loop of
`_search_object`. -/
def resolve_candidates (object_type object_name : String) :
    List Directory → Except String (List (PyClass × String))
  | [] => Except.ok []
  | d :: rest =>
    match scan_directory d object_type object_name with
    | Except.error msg => Except.error msg
    | Except.ok objs =>
      match resolve_candidates object_type object_name rest with
      | Except.error msg => Except.error msg
      | Except.ok more => Except.ok (objs ++ more)

/-- Modelled from the spec: `resolve` applies the decision rule of
`_search_object` once, to the candidate list accumulated across the whole search
path ("zero matches = not found, exactly one = instantiate and return with
provenance, more than one = ambiguity failure naming every source location"). -/
def resolve (dirs : List Directory) (type_name object_type object_name : String)
    (kwargs : List (String × Int)) : SearchOutcome :=
  match resolve_candidates object_type object_name dirs with
  | Except.error msg => ⟨Except.error (SearchError.loadFailure msg), [], kwargs⟩
  | Except.ok objs => decide_objs type_name object_name kwargs objs

/-- One call to `_search_object` under Python's default-argument mechanism: the
`kwargs: dict = {}` default is a single dict created at definition time and shared
by every call that omits the argument.  `default_state` is that dict's current
contents; a call with an omitted argument (`none`) uses it, and the shared dict
afterwards holds whatever the call left in it (`kwargs_after`). -/
def search_object_call (d : Directory) (type_name object_type object_name : String)
    (explicit_kwargs : Option (List (String × Int)))
    (default_state : List (String × Int)) :
    SearchOutcome × List (String × Int) :=
  match explicit_kwargs with
  | some kw => (search_object d type_name object_type object_name kw, default_state)
  | none =>
    let out := search_object d type_name object_type object_name default_state
    (out, out.kwargs_after)

/-- A sequence of `_search_object` calls, threading the shared default dict from one
call to the next; `none` entries are calls that omit `kwargs`. -/
def search_object_seq (d : Directory) (type_name object_type object_name : String) :
    List (Option (List (String × Int))) → List (String × Int) →
    List SearchOutcome × List (String × Int)
  | [], st => ([], st)
  | c :: cs, st =>
    let step := search_object_call d type_name object_type object_name c st
    let rest := search_object_seq d type_name object_type object_name cs step.snd
    (step.fst :: rest.fst, rest.snd)

/-- Test fixture: a strategy class `MyStrat(IStrategy)` whose constructor accepts
keyword parameters `paramA` and `paramB` and records its arguments. -/
def myStrat : PyClass := ⟨"MyStrat", ["IStrategy"], ["paramA", "paramB"]⟩

/-- Test fixture: an unrelated strategy class `Other(IStrategy)`. -/
def otherClass : PyClass := ⟨"Other", ["IStrategy"], []⟩

/-- Test fixture: `Foo.py`, loading cleanly and defining `MyStrat`. -/
def fileFoo : SourceFile := ⟨"Foo.py", [myStrat], none⟩

/-- Test fixture: `Bar.py`, loading cleanly and defining only `Other`. -/
def fileBar : SourceFile := ⟨"Bar.py", [otherClass], none⟩

/-- Test fixture: `Dup.py`, a second clean file defining a class named `MyStrat`
with base `IStrategy`. -/
def fileDup : SourceFile := ⟨"Dup.py", [myStrat], none⟩

/-- Test fixture: `Broken.py`, raising `SyntaxError` during load, so its module
namespace holds no members. -/
def fileBroken : SourceFile := ⟨"Broken.py", [], some (LoadError.syntaxError "invalid syntax")⟩

/-- Test fixture: `Torn.py`, defining `MyStrat` and then raising
`ModuleNotFoundError` from a later import, leaving the partially initialized module
with `MyStrat` bound. -/
def fileTorn : SourceFile :=
  ⟨"Torn.py", [myStrat], some (LoadError.moduleNotFound "No module named talib")⟩

/-- Test fixture: `notes.txt`, a non-Python entry the scan must ignore. -/
def fileNotes : SourceFile := ⟨"notes.txt", [myStrat], none⟩

/-- Test fixture: a directory with one match among non-matching and broken files. -/
def dirMixed : Directory := ⟨"/strats", [fileBroken, fileFoo, fileNotes, fileBar]⟩

/-- Test fixture: a directory with two files both defining `MyStrat(IStrategy)`. -/
def dirTwo : Directory := ⟨"/strats", [fileFoo, fileDup]⟩

/-- Test fixture: an empty directory. -/
def dirEmpty : Directory := ⟨"/empty", []⟩

/-- Test fixture: a user directory with a single match. -/
def dirUser : Directory := ⟨"/user", [fileFoo]⟩

/-- Test fixture: a built-in directory with a single match of the same name. -/
def dirBuiltin : Directory := ⟨"/builtin", [fileDup]⟩

/-- Test fixture: a directory holding only the partially loaded `Torn.py`. -/
def dirTorn : Directory := ⟨"/strats", [fileTorn]⟩

/-- The head of a filtered list is the first element satisfying the predicate. -/
theorem filter_head_eq_find {α : Type} (p : α → Bool) (l : List α) :
    (l.filter p).head? = l.find? p := by
  induction l with
  | nil => rfl
  | cons a t ih =>
    by_cases h : p a
    · simp [List.filter_cons, h, List.find?_cons_of_pos]
    · simp [List.filter_cons, h, List.find?_cons_of_neg, ih]

/-- Every branch of the decision rule returns the kwargs dict as received. -/
theorem decide_objs_kwargs_after_eq (tn obn : String) (kw : List (String × Int))
    (objs : List (PyClass × String)) :
    (decide_objs tn obn kw objs).kwargs_after = kw := by
  unfold decide_objs
  rcases objs with _ | ⟨⟨obj, mp⟩, _ | ⟨b, r⟩⟩
  · rfl
  · cases hc : construct obj kw <;> simp [hc]
  · rfl

/-- A `_search_object` call returns the kwargs dict exactly as received. -/
theorem search_object_kwargs_after_eq (d : Directory) (tn ot obn : String)
    (kw : List (String × Int)) :
    (search_object d tn ot obn kw).kwargs_after = kw := by
  unfold search_object
  cases hs : scan_directory d ot obn
  · rfl
  · exact decide_objs_kwargs_after_eq tn obn kw _

/-- Either a `_search_object` call performs no constructor invocation, or the scan
accumulated exactly one candidate and that candidate alone was invoked, with the
supplied kwargs. -/
theorem search_object_ctor_calls_cases (d : Directory) (tn ot obn : String)
    (kwargs : List (String × Int)) :
    (search_object d tn ot obn kwargs).ctor_calls = [] ∨
    ∃ obj mp, scan_directory d ot obn = Except.ok [(obj, mp)] ∧
      (search_object d tn ot obn kwargs).ctor_calls = [(obj, kwargs)] := by
  unfold search_object
  cases hs : scan_directory d ot obn with
  | error msg => exact Or.inl rfl
  | ok objs =>
    rcases objs with _ | ⟨⟨obj, mp⟩, _ | ⟨b, r⟩⟩
    · exact Or.inl rfl
    · refine Or.inr ⟨obj, mp, rfl, ?_⟩
      show (decide_objs tn obn kwargs [(obj, mp)]).ctor_calls = [(obj, kwargs)]
      unfold decide_objs
      cases hc : construct obj kwargs <;> simp [hc]
    · exact Or.inl rfl

/-- C1: whenever the scan of a directory accumulates two or more candidates
matching the requested name and base contract, `_search_object` raises an
`OperationalException` whose message is `ambiguity_message` applied to the
capability type label, the requested name, and the module paths of all matches in
the order the scan encountered them, and no constructor invocation is performed. -/
theorem c1_ambiguity_lists_all_paths (d : Directory) (tn ot obn : String)
    (kwargs : List (String × Int)) (objs : List (PyClass × String))
    (hscan : scan_directory d ot obn = Except.ok objs) (h2 : 2 ≤ objs.length) :
    (search_object d tn ot obn kwargs).result =
      Except.error (SearchError.operationalException
        (ambiguity_message tn obn (objs.map (fun p => p.snd)))) ∧
    (search_object d tn ot obn kwargs).ctor_calls = [] := by
  unfold search_object
  rw [hscan]
  rcases objs with _ | ⟨a, _ | ⟨b, r⟩⟩
  · simp at h2
  · simp at h2
  · exact ⟨rfl, rfl⟩

/-- C1 witness: a directory whose two files both define `MyStrat(IStrategy)`. -/
theorem c1_ambiguity_lists_all_paths_witness :
    (search_object dirTwo "Unknown" "IStrategy" "MyStrat" []).result =
      Except.error (SearchError.operationalException
        (ambiguity_message "Unknown" "MyStrat" ["/strats/Foo.py", "/strats/Dup.py"])) ∧
    (search_object dirTwo "Unknown" "IStrategy" "MyStrat" []).ctor_calls = [] :=
  c1_ambiguity_lists_all_paths dirTwo "Unknown" "IStrategy" "MyStrat" []
    [(myStrat, "/strats/Foo.py"), (myStrat, "/strats/Dup.py")] rfl (by decide)

/-- C6: when the scan of the directory accumulates zero candidates,
`_search_object` returns the `(None, None)` sentinel — a normal return, not a
raised error — and invokes no constructor. -/
theorem c6_not_found_is_sentinel (d : Directory) (tn ot obn : String)
    (kwargs : List (String × Int))
    (hscan : scan_directory d ot obn = Except.ok []) :
    (search_object d tn ot obn kwargs).result = Except.ok none ∧
    (search_object d tn ot obn kwargs).ctor_calls = [] := by
  unfold search_object
  rw [hscan]
  exact ⟨rfl, rfl⟩

/-- C6 witness: an empty directory yields the not-found sentinel. -/
theorem c6_not_found_is_sentinel_witness :
    (search_object dirEmpty "Unknown" "IStrategy" "MyStrat" []).result = Except.ok none ∧
    (search_object dirEmpty "Unknown" "IStrategy" "MyStrat" []).ctor_calls = [] :=
  c6_not_found_is_sentinel dirEmpty "Unknown" "IStrategy" "MyStrat" [] rfl

/-- C7: a constructor is invoked only obn the exactly-one-candidate path: whenever a
`_search_object` call performed any constructor invocation, the scan accumulated a
singleton candidate list, and the one invocation was of that candidate with the
supplied kwargs. -/
theorem c7_ctor_only_when_unique (d : Directory) (tn ot obn : String)
    (kwargs : List (String × Int))
    (hne : (search_object d tn ot obn kwargs).ctor_calls ≠ []) :
    ∃ obj mp, scan_directory d ot obn = Except.ok [(obj, mp)] ∧
      (search_object d tn ot obn kwargs).ctor_calls = [(obj, kwargs)] := by
  rcases search_object_ctor_calls_cases d tn ot obn kwargs with h | h
  · exact absurd h hne
  · exact h

/-- C7 witness: a single-match directory does invoke the constructor, and the scan
indeed accumulated exactly that one candidate. -/
theorem c7_ctor_only_when_unique_witness :
    ∃ obj mp, scan_directory dirUser "IStrategy" "MyStrat" = Except.ok [(obj, mp)] ∧
      (search_object dirUser "Unknown" "IStrategy" "MyStrat" []).ctor_calls =
        [(obj, [])] :=
  c7_ctor_only_when_unique dirUser "Unknown" "IStrategy" "MyStrat" [] (by decide)

/-- C2: resolution over a search path scans every directory: the candidates
accumulated over `d :: rest` are those of `d` followed by those of all remaining
directories — an early match does not short-circuit the scan — and ambiguity is
detected across the entire path: a single match in each of two directories already
raises the ambiguity error naming both source paths. -/
theorem c2_whole_path_scanned (ot obn : String) (d : Directory) (rest : List Directory)
    (objs more : List (PyClass × String))
    (hd : scan_directory d ot obn = Except.ok objs)
    (hrest : resolve_candidates ot obn rest = Except.ok more) :
    resolve_candidates ot obn (d :: rest) = Except.ok (objs ++ more) ∧
    (∀ (tn : String) (kwargs : List (String × Int)) (c1 c2 : PyClass × String),
      objs = [c1] → more = [c2] →
      (resolve (d :: rest) tn ot obn kwargs).result =
        Except.error (SearchError.operationalException
          (ambiguity_message tn obn [c1.snd, c2.snd]))) := by
  have hacc : resolve_candidates ot obn (d :: rest) = Except.ok (objs ++ more) := by
    unfold resolve_candidates
    rw [hd, hrest]
  refine ⟨hacc, ?_⟩
  intro tn kwargs c1 c2 h1 h2
  subst h1
  subst h2
  obtain ⟨o1, p1⟩ := c1
  obtain ⟨o2, p2⟩ := c2
  unfold resolve
  rw [hacc]
  rfl

/-- C2 witness: one `MyStrat` in the user directory and one in the built-in
directory are both accumulated, and together they raise the ambiguity error. -/
theorem c2_whole_path_scanned_witness :
    resolve_candidates "IStrategy" "MyStrat" [dirUser, dirBuiltin] =
      Except.ok [(myStrat, "/user/Foo.py"), (myStrat, "/builtin/Dup.py")] ∧
    (resolve [dirUser, dirBuiltin] "Unknown" "IStrategy" "MyStrat" []).result =
      Except.error (SearchError.operationalException
        (ambiguity_message "Unknown" "MyStrat" ["/user/Foo.py", "/builtin/Dup.py"])) := by
  have h := c2_whole_path_scanned "IStrategy" "MyStrat" dirUser [dirBuiltin]
    [(myStrat, "/user/Foo.py")] [(myStrat, "/builtin/Dup.py")] rfl rfl
  exact ⟨h.1, h.2 "Unknown" [] (myStrat, "/user/Foo.py") (myStrat, "/builtin/Dup.py") rfl rfl⟩

/-- A scan step over a `.py` entry whose load and match have been evaluated: its
candidate (if any) is prepended to the candidates of the remaining entries. -/
theorem scan_loop_cons_py (dp ot obn : String) (f : SourceFile)
    (rest : List SourceFile) (opt : Option PyClass) (L : List (PyClass × String))
    (hpy : str_ends_with f.entryName ".py" = true)
    (hvo : get_valid_object ot f obn = Except.ok opt)
    (hrest : scan_loop dp ot obn rest = Except.ok L) :
    scan_loop dp ot obn (f :: rest) =
      Except.ok ((opt.map (fun o => (o, dp ++ "/" ++ f.entryName))).toList ++ L) := by
  unfold scan_loop
  rw [hpy]
  simp only [if_true]
  rw [hvo, hrest]
  cases opt with
  | none => rfl
  | some o => rfl

/-- C3: a source unit whose load raised a caught exception (`ModuleNotFoundError`
or `SyntaxError`) never aborts the scan of its directory: the scan still returns
normally, with every candidate of the later files preserved after the (possibly
empty) contribution of the failing file's partially executed module. -/
theorem c3_load_failure_does_not_abort (dp ot obn : String) (f : SourceFile)
    (rest : List SourceFile) (err : LoadError) (L : List (PyClass × String))
    (hpy : str_ends_with f.entryName ".py" = true)
    (hf : f.execError = some err) (hc : err.isCaught = true)
    (hrest : scan_loop dp ot obn rest = Except.ok L) :
    ∃ pre, scan_loop dp ot obn (f :: rest) = Except.ok (pre ++ L) := by
  have hok : get_valid_object ot f obn =
      Except.ok ((f.members.filter
        (fun obj => obn == obj.name && obj.bases.contains ot)).head?) := by
    unfold get_valid_object
    rw [hf]
    cases err with
    | moduleNotFound m => rfl
    | syntaxError m => rfl
    | uncaught m => simp [LoadError.isCaught] at hc
  exact ⟨_, scan_loop_cons_py dp ot obn f rest _ L hpy hok hrest⟩

/-- C3 witness: `Broken.py` (a `SyntaxError` file) precedes `Foo.py`, and the valid
`Foo.py` candidate still comes out of the scan. -/
theorem c3_load_failure_does_not_abort_witness :
    ∃ pre, scan_loop "/strats" "IStrategy" "MyStrat" [fileBroken, fileFoo] =
      Except.ok (pre ++ [(myStrat, "/strats/Foo.py")]) :=
  c3_load_failure_does_not_abort "/strats" "IStrategy" "MyStrat" fileBroken [fileFoo]
    (LoadError.syntaxError "invalid syntax") [(myStrat, "/strats/Foo.py")]
    (by decide) rfl rfl rfl

/-- C4: on a unit whose load did not raise an uncaught exception, the matcher
returns exactly the first member whose identifier equals the requested name under
exact case-sensitive comparison and whose immediate bases contain the base
contract, and `none` when no member satisfies both filters; ancestry is not walked
transitively — a class whose grandparent, but no direct base, is the contract is
not matched. -/
theorem c4_matcher_first_exact_direct (ot obn : String) (f : SourceFile)
    (h : ∀ msg, f.execError ≠ some (LoadError.uncaught msg)) :
    get_valid_object ot f obn =
      Except.ok (f.members.find?
        (fun obj => obn == obj.name && obj.bases.contains ot)) ∧
    get_valid_object "Contract"
      ⟨"Deep.py", [⟨"Mid", ["Contract"], []⟩, ⟨"MyStrat", ["Mid"], []⟩], none⟩
      "MyStrat" = Except.ok none := by
  constructor
  · unfold get_valid_object
    cases hf : f.execError with
    | none => exact congrArg Except.ok (filter_head_eq_find _ _)
    | some err =>
      cases err with
      | moduleNotFound m => exact congrArg Except.ok (filter_head_eq_find _ _)
      | syntaxError m => exact congrArg Except.ok (filter_head_eq_find _ _)
      | uncaught m => exact absurd hf (h m)
  · rfl

/-- C4 witness: the matcher on the cleanly loaded `Foo.py` agrees with the
first-match characterization, and the transitively related class is not matched. -/
theorem c4_matcher_first_exact_direct_witness :
    (get_valid_object "IStrategy" fileFoo "MyStrat" =
      Except.ok (fileFoo.members.find?
        (fun obj => "MyStrat" == obj.name && obj.bases.contains "IStrategy")) ∧
    get_valid_object "Contract"
      ⟨"Deep.py", [⟨"Mid", ["Contract"], []⟩, ⟨"MyStrat", ["Mid"], []⟩], none⟩
      "MyStrat" = Except.ok none) :=
  c4_matcher_first_exact_direct "IStrategy" "MyStrat" fileFoo
    (fun _ hbad => Option.noConfusion hbad)

/-- C5: when the scan accumulates exactly one candidate, `_search_object`
instantiates its implementation handle with the supplied kwargs passed through
unmodified — the instance records exactly the supplied key/value pairs — and
returns the instance paired with the candidate's module path. -/
theorem c5_unique_match_instantiated (d : Directory) (tn ot obn : String)
    (kwargs : List (String × Int)) (obj : PyClass) (mp : String) (inst : Instance)
    (hscan : scan_directory d ot obn = Except.ok [(obj, mp)])
    (hctor : construct obj kwargs = Except.ok inst) :
    (search_object d tn ot obn kwargs).result = Except.ok (some (inst, mp)) ∧
    inst.cls = obj ∧ inst.initArgs = kwargs := by
  have hinst : inst = ⟨obj, kwargs⟩ := by
    unfold construct at hctor
    by_cases hall : kwargs.all (fun kv => obj.ctorParams.contains kv.fst)
    · rw [if_pos hall] at hctor
      exact (Except.ok.inj hctor).symm
    · rw [if_neg hall] at hctor
      simp at hctor
  refine ⟨?_, by rw [hinst], by rw [hinst]⟩
  unfold search_object
  rw [hscan]
  show (decide_objs tn obn kwargs [(obj, mp)]).result = Except.ok (some (inst, mp))
  unfold decide_objs
  simp [hctor]

/-- C5 witness: resolving `MyStrat` in the user directory with `paramA = 5`
returns an instance observing exactly `paramA = 5`, from `/user/Foo.py`. -/
theorem c5_unique_match_instantiated_witness :
    (search_object dirUser "Unknown" "IStrategy" "MyStrat" [("paramA", 5)]).result =
      Except.ok (some (⟨myStrat, [("paramA", 5)]⟩, "/user/Foo.py")) ∧
    Instance.cls ⟨myStrat, [("paramA", 5)]⟩ = myStrat ∧
    Instance.initArgs ⟨myStrat, [("paramA", 5)]⟩ = [("paramA", 5)] :=
  c5_unique_match_instantiated dirUser "Unknown" "IStrategy" "MyStrat"
    [("paramA", 5)] myStrat "/user/Foo.py" ⟨myStrat, [("paramA", 5)]⟩ rfl rfl

/-- C8: when the uniquely matched implementation's constructor rejects the supplied
parameters, the constructor's `TypeError` propagates to the caller carrying exactly
the error the constructor raised, as a construction failure that is never equal to
an `OperationalException` ambiguity error, after exactly one instantiation attempt
(no retry); and on any scan that accumulated two or more candidates the ambiguity
error is raised with no instantiation attempted at all. -/
theorem c8_construction_failure_distinct (d : Directory) (tn ot obn : String)
    (kwargs : List (String × Int)) (obj : PyClass) (mp : String) (e : CtorError)
    (hscan : scan_directory d ot obn = Except.ok [(obj, mp)])
    (hctor : construct obj kwargs = Except.error e) :
    (search_object d tn ot obn kwargs).result =
      Except.error (SearchError.constructionFailure e) ∧
    (search_object d tn ot obn kwargs).ctor_calls = [(obj, kwargs)] ∧
    (∀ msg, SearchError.constructionFailure e ≠ SearchError.operationalException msg) ∧
    (∀ (d2 : Directory) (objs2 : List (PyClass × String)),
      scan_directory d2 ot obn = Except.ok objs2 → 2 ≤ objs2.length →
      (search_object d2 tn ot obn kwargs).ctor_calls = []) := by
  refine ⟨?_, ?_, ?_, ?_⟩
  · unfold search_object
    rw [hscan]
    show (decide_objs tn obn kwargs [(obj, mp)]).result =
      Except.error (SearchError.constructionFailure e)
    unfold decide_objs
    simp [hctor]
  · unfold search_object
    rw [hscan]
    show (decide_objs tn obn kwargs [(obj, mp)]).ctor_calls = [(obj, kwargs)]
    unfold decide_objs
    simp [hctor]
  · intro msg hbad
    exact SearchError.noConfusion hbad
  · intro d2 objs2 hs2 h2
    unfold search_object
    rw [hs2]
    rcases objs2 with _ | ⟨a, _ | ⟨b, r⟩⟩
    · simp at h2
    · simp at h2
    · rfl

/-- C8 witness: an unexpected keyword makes the unique `MyStrat` constructor raise,
the raised error comes back verbatim after the one attempt, and the two-candidate
directory performs no instantiation. -/
theorem c8_construction_failure_distinct_witness :
    (search_object dirUser "Unknown" "IStrategy" "MyStrat" [("bogus", 7)]).result =
      Except.error (SearchError.constructionFailure
        (CtorError.typeError "__init__ got an unexpected keyword argument")) ∧
    (search_object dirUser "Unknown" "IStrategy" "MyStrat" [("bogus", 7)]).ctor_calls =
      [(myStrat, [("bogus", 7)])] ∧
    SearchError.constructionFailure
        (CtorError.typeError "__init__ got an unexpected keyword argument") ≠
      SearchError.operationalException
        (ambiguity_message "Unknown" "MyStrat" ["/strats/Foo.py", "/strats/Dup.py"]) ∧
    (search_object dirTwo "Unknown" "IStrategy" "MyStrat" [("bogus", 7)]).ctor_calls =
      [] := by
  have h := c8_construction_failure_distinct dirUser "Unknown" "IStrategy" "MyStrat"
    [("bogus", 7)] myStrat "/user/Foo.py"
    (CtorError.typeError "__init__ got an unexpected keyword argument") rfl rfl
  exact ⟨h.1, h.2.1, h.2.2.1 _,
    h.2.2.2 dirTwo [(myStrat, "/strats/Foo.py"), (myStrat, "/strats/Dup.py")]
      rfl (by decide)⟩

/-- C9: a caught load failure leaves the partially initialized module to be
inspected: `Torn.py` raises `ModuleNotFoundError` from an import placed after the
definition of `MyStrat`, yet the matcher still returns the `MyStrat` defined before
the failing statement, and the file goes on to win the resolution. -/
theorem c9_partial_module_wins :
    fileTorn.execError = some (LoadError.moduleNotFound "No module named talib") ∧
    get_valid_object "IStrategy" fileTorn "MyStrat" = Except.ok (some myStrat) ∧
    (search_object dirTorn "Unknown" "IStrategy" "MyStrat" [("paramA", 5)]).result =
      Except.ok (some (⟨myStrat, [("paramA", 5)]⟩, "/strats/Torn.py")) :=
  ⟨rfl, rfl, rfl⟩

/-- C10: `_search_object` leaves the supplied kwargs dict unchanged in every branch
of every call, so under the shared mutable default of `kwargs: dict = ...` a
sequence of calls that omit `kwargs` — threading the shared default dict from call
to call — gives each call exactly the behavior of a call passing a fresh empty
mapping, the shared default stays empty throughout, and no call observes another
call's arguments through it. -/
theorem c10_kwargs_never_mutated (d : Directory) (tn ot obn : String) :
    (∀ kwargs, (search_object d tn ot obn kwargs).kwargs_after = kwargs) ∧
    (∀ calls,
      (search_object_seq d tn ot obn calls []).fst =
        calls.map (fun c => search_object d tn ot obn (c.getD [])) ∧
      (search_object_seq d tn ot obn calls []).snd = []) := by
  refine ⟨search_object_kwargs_after_eq d tn ot obn, ?_⟩
  intro calls
  induction calls with
  | nil => exact ⟨rfl, rfl⟩
  | cons c cs ih =>
    cases c with
    | some kw =>
      constructor
      · show search_object d tn ot obn kw ::
            (search_object_seq d tn ot obn cs []).fst =
          search_object d tn ot obn kw ::
            cs.map (fun c => search_object d tn ot obn (c.getD []))
        rw [ih.1]
      · show (search_object_seq d tn ot obn cs []).snd = []
        exact ih.2
    | none =>
      have ha : (search_object d tn ot obn []).kwargs_after = [] :=
        search_object_kwargs_after_eq d tn ot obn []
      constructor
      · show search_object d tn ot obn [] ::
            (search_object_seq d tn ot obn cs
              ((search_object d tn ot obn []).kwargs_after)).fst =
          search_object d tn ot obn [] ::
            cs.map (fun c => search_object d tn ot obn (c.getD []))
        rw [ha, ih.1]
      · show (search_object_seq d tn ot obn cs
            ((search_object d tn ot obn []).kwargs_after)).snd = []
        rw [ha]
        exact ih.2
